import Mathlib

/-!
Verification of the rendering-and-rasterization pipeline of the
`ink-publipostage-grist` repository, a mail-merge PDF generator.

The development is a shallow embedding of `src/modules/document_generator.py`
(module-level functions `sanitize_filename`, `generate_filename_from_pattern`
and the `DocumentGenerator` methods `is_timestamp`, `format_date_fr`,
`convert_timestamps_in_data`, `render_template`, `generate_html`,
`generate_pdf`, `generate_multiple_documents`, `_cleanup_thread_browser`).
Pure string/number manipulation is translated function by function; the
effectful parts (Playwright browser session, file system) are embedded as
explicit state with oracle parameters for the points where the outside
world may fail.

Modelling conventions, fixed once here:
* Record field values are the JSON scalars Grist delivers:
  `None`, `bool`, `int`, `str` (the `PyVal` type below).  Python `float`
  only arises inside `format_date_fr` via `value / 1000`; the embedding
  treats that division as exact and folds it into the day computation by
  integer floor division (see `format_date_fr`), which agrees with the
  float computation on the whole plausible-timestamp window.
* Python strings are embedded as `List Char` (code points, matching
  the Python `len`/indexing semantics), wrapped into `String` at the
  interfaces.  `str.strip`, `str.lower` and the regex classes `\s` and
  `[\x00-\x1f<>:"/\\|?*]` are embedded for the ASCII range, which covers
  every character the theorems below touch.
* `datetime.fromtimestamp` uses the process-local timezone; it is embedded
  with the timezone fixed to UTC (offset 0).  No theorem below depends on
  the offset: the date claims are equalities between two conversions made
  in the same timezone, except for one explicitly-UTC sample value.
-/

/-! ## Python scalar values -/

/-- A scalar record value as delivered by the Grist JSON API:
`None`, `bool`, `int` or `str`. -/
inductive PyVal where
  | none : PyVal
  | bool (b : Bool) : PyVal
  | int (n : Int) : PyVal
  | str (s : String) : PyVal
deriving DecidableEq, Repr

/-- Python truthiness (`bool(v)`): `None`, `False`, `0` and `""` are falsy. -/
def pyTruthy : PyVal → Bool
  | .none => false
  | .bool b => b
  | .int n => n != 0
  | .str s => s != ""

/-- Python `x or y`: `x` if truthy, else `y`. -/
def pyOr (x y : PyVal) : PyVal := if pyTruthy x then x else y

/-- A decimal digit character. -/
def digitChar : Nat → Char
  | 0 => '0' | 1 => '1' | 2 => '2' | 3 => '3' | 4 => '4'
  | 5 => '5' | 6 => '6' | 7 => '7' | 8 => '8' | _ => '9'

/-- Decimal digits of a natural number (fuel-based; `fuel > n` always
suffices since the argument shrinks by a factor of 10 per step). -/
def natToChars : Nat → Nat → List Char
  | 0, _ => []
  | fuel + 1, n =>
    if n < 10 then [digitChar n]
    else natToChars fuel (n / 10) ++ [digitChar (n % 10)]

/-- Decimal rendering of a natural number. -/
def natToString (n : Nat) : String := String.mk (natToChars (n + 1) n)

/-- Decimal rendering of an integer (Python `str(int)`). -/
def intToString (n : Int) : String :=
  if n < 0 then String.mk ('-' :: natToChars (n.natAbs + 1) n.natAbs)
  else natToString n.toNat

/-- Python `str(v)` on a scalar. -/
def pyStr : PyVal → String
  | .none => "None"
  | .bool b => if b then "True" else "False"
  | .int n => intToString n
  | .str s => s

/-- A record: ordered field-name/value pairs (a Python `dict` as iterated
by `dict.items()`). -/
abbrev Record := List (String × PyVal)

/-! ## Python string primitives (ASCII range) -/

/-- The `\s` class of Python `re` over ASCII:
space, tab, newline, carriage return, vertical tab, form feed. -/
def isPySpace (c : Char) : Bool :=
  c = ' ' || c = '\t' || c = '\n' || c = '\r' || c = '\x0b' || c = '\x0c'

/-- `str.strip()`: remove leading and trailing whitespace. -/
def pyStrip (l : List Char) : List Char :=
  ((l.dropWhile isPySpace).reverse.dropWhile isPySpace).reverse

/-- `str.strip(c)` for a single character argument. -/
def pyStripChar (c : Char) (l : List Char) : List Char :=
  ((l.dropWhile (· = c)).reverse.dropWhile (· = c)).reverse

/-- Python `s.lower()` (ASCII range — `Char.toLower` lowers exactly
`'A'..'Z'`, which is what `lower` does on ASCII input). -/
def pyLower (l : List Char) : List Char := l.map Char.toLower

/-- Python `s.endswith(p)`: `p` is a suffix of `s`. -/
def listEndsWith (l p : List Char) : Bool := l.drop (l.length - p.length) = p

/-- Match a literal prefix, returning the remainder. -/
def matchLiteral : List Char → List Char → Option (List Char)
  | [], l => some l
  | _ :: _, [] => Option.none
  | p :: ps, c :: cs => if c = p then matchLiteral ps cs else Option.none

/-- The generic left-to-right non-overlapping substitution scan shared by
`str.replace` and `re.sub`: at each position try `matchAt`; on a match
emit `repl` and resume after the match, otherwise keep one character and
advance.  Fuel is the input length; every matcher used below consumes at
least one character on success, so the fuel never runs out and the
fuel-exhausted equation is unreachable. -/
def reSubScan (matchAt : List Char → Option (List Char)) (repl : List Char) :
    Nat → List Char → List Char
  | 0, l => l
  | _ + 1, [] => []
  | fuel + 1, c :: cs =>
    match matchAt (c :: cs) with
    | some rest => repl ++ reSubScan matchAt repl fuel rest
    | Option.none => c :: reSubScan matchAt repl fuel cs

/-- Python `s.replace(target, repl)` for a nonempty literal target. -/
def pyReplace (s : String) (target repl : String) : String :=
  String.mk (reSubScan (matchLiteral target.data) repl.data s.data.length s.data)

/-! ## `sanitize_filename` (document_generator.py lines 16-29) -/

/-- One character of the class `[<>:"/\\|?*\x00-\x1f]` from the first
`re.sub` of `sanitize_filename`. -/
def isInvalidFilenameChar (c : Char) : Bool :=
  c = '<' || c = '>' || c = ':' || c = '"' || c = '/' || c = '\\' ||
  c = '|' || c = '?' || c = '*' || c.val < 32

/-- `re.sub(r'_+', '_', ·)`: collapse runs of underscores to a single one.
The boolean accumulator records whether the previous kept character closed
an underscore run. -/
def collapseUnderscores : Bool → List Char → List Char
  | _, [] => []
  | prevU, c :: cs =>
    if c = '_' then
      if prevU then collapseUnderscores true cs
      else '_' :: collapseUnderscores true cs
    else c :: collapseUnderscores false cs

/-- `filename.rsplit('.', 1)` for a list known to contain `'.'`:
split at the last dot into (name, extension). -/
def rsplitDot (l : List Char) : List Char × List Char :=
  let r := l.reverse
  let ext := r.takeWhile (· ≠ '.')
  let rest := r.dropWhile (· ≠ '.')
  ((rest.drop 1).reverse, ext.reverse)

/-- The length-200 truncation step of `sanitize_filename`:
`name, ext = filename.rsplit('.', 1) if '.' in filename else (filename, '')`
followed by `name[:195] + ('.' + ext if ext else '')`. -/
def truncate200 (l : List Char) : List Char :=
  if l.length > 200 then
    if l.contains '.' then
      let ne := rsplitDot l
      ne.1.take 195 ++ (if ne.2 ≠ [] then '.' :: ne.2 else [])
    else l.take 195
  else l

/-- `sanitize_filename` (document_generator.py lines 16-29): map the
invalid-character class to `'_'`, strip whitespace, map spaces to `'_'`,
collapse `'_'` runs, strip `'_'`, truncate past 200 characters keeping the
extension. -/
def sanitize_filename (s : String) : String :=
  let l := s.data.map (fun c => if isInvalidFilenameChar c then '_' else c)
  let l := pyStrip l
  let l := l.map (fun c => if c = ' ' then '_' else c)
  let l := collapseUnderscores false l
  let l := pyStripChar '_' l
  String.mk (truncate200 l)

/-! ## The `re.sub` replacement template (document_generator.py line 45)

`generate_filename_from_pattern` passes the raw stringified field value as
the *replacement* argument of `re.sub`, where Python interprets `\`
escapes: `\\` is a backslash, `\1`..`\99` and `\g<...>` are group
references (the pattern `{` + `re.escape(key)` + `}` has no groups, so any
group reference fails with "invalid group reference"), `\a \b \f \n \r \t
\v` are the usual control characters, `\0` is the NUL octal escape (the
multi-digit octal forms are not modelled), any other escaped ASCII letter
is "bad escape", a trailing `\` is "bad escape (end of pattern)", and an
escaped non-alphanumeric character is kept verbatim with its backslash.
`\g<0>` (the whole match) is not distinguished and is treated as a group
reference. -/

/-- Expand a `re.sub` replacement template against a pattern with no
groups; errors mirror `sre_parse.parse_template`. -/
def parseReplTemplate : List Char → Except String (List Char)
  | [] => .ok []
  | '\\' :: rest =>
    match rest with
    | [] => .error "bad escape (end of pattern)"
    | c :: cs =>
      if c = '\\' then do
        let t ← parseReplTemplate cs
        .ok ('\\' :: t)
      else if c = 'g' then .error "invalid group reference"
      else if '1' ≤ c ∧ c ≤ '9' then .error "invalid group reference"
      else if c = '0' then do
        let t ← parseReplTemplate cs
        .ok ('\x00' :: t)
      else if c = 'a' then do let t ← parseReplTemplate cs; .ok ('\x07' :: t)
      else if c = 'b' then do let t ← parseReplTemplate cs; .ok ('\x08' :: t)
      else if c = 'f' then do let t ← parseReplTemplate cs; .ok ('\x0c' :: t)
      else if c = 'n' then do let t ← parseReplTemplate cs; .ok ('\n' :: t)
      else if c = 'r' then do let t ← parseReplTemplate cs; .ok ('\r' :: t)
      else if c = 't' then do let t ← parseReplTemplate cs; .ok ('\t' :: t)
      else if c = 'v' then do let t ← parseReplTemplate cs; .ok ('\x0b' :: t)
      else if c.isAlpha then .error "bad escape"
      else do
        let t ← parseReplTemplate cs
        .ok ('\\' :: c :: t)
  | c :: cs => do
    let t ← parseReplTemplate cs
    .ok (c :: t)

/-! ## `generate_filename_from_pattern` (document_generator.py lines 32-53) -/

/-- The pattern `r'{' + re.escape(key) + r'}'` matches exactly the literal
text `{key}`; `re.sub` with a literal pattern is left-to-right
non-overlapping literal replacement. -/
def reSubLiteralKey (key : String) (repl : List Char) (s : String) : String :=
  pyReplace s ("\x7b" ++ key ++ "\x7d") (String.mk repl)

/-- `re.sub(r'\s+', '_', ·)`: each maximal whitespace run becomes one
underscore.  The accumulator records whether the previous character was
whitespace. -/
def collapseWsAux : Bool → List Char → List Char
  | _, [] => []
  | prevWs, c :: cs =>
    if isPySpace c then
      if prevWs then collapseWsAux true cs
      else '_' :: collapseWsAux true cs
    else c :: collapseWsAux false cs

/-- `re.sub(r'\s+', '_', s)` on a string. -/
def collapseWs (s : String) : String := String.mk (collapseWsAux false s.data)

/-- One iteration of the substitution loop (document_generator.py lines
42-45): `str_value = str(value or 'vide').strip()` used as the `re.sub`
replacement for the literal pattern `{key}`.  Python parses the
replacement template eagerly, so a bad escape in the value raises even
when the pattern does not occur. -/
def substField (filename : String) (kv : String × PyVal) : Except String String := do
  let str_value := String.mk (pyStrip (pyStr (pyOr kv.2 (.str "vide"))).data)
  let repl ← parseReplTemplate str_value.data
  .ok (reSubLiteralKey kv.1 repl filename)

/-- The steps of `generate_filename_from_pattern` before the substitution
loop (lines 34-40): default an empty or whitespace-only pattern to
`"document"`, strip, substitute `{index}` when an index was supplied. -/
def filenameBase (pattern : String) (index : Option Int) : String :=
  let pattern :=
    if pattern = "" || String.mk (pyStrip pattern.data) = "" then "document" else pattern
  let filename := String.mk (pyStrip pattern.data)
  match index with
  | some i => pyReplace filename "{index}" (intToString i)
  | Option.none => filename

/-- The steps of `generate_filename_from_pattern` after the substitution
loop (lines 47-53): whitespace runs to `'_'`, `sanitize_filename`, append
`'.pdf'` unless already present (`filename.lower().endswith('.pdf')`). -/
def filenameFinish (f : String) : String :=
  let f := collapseWs f
  let f := sanitize_filename f
  if listEndsWith (pyLower f.data) ['.', 'p', 'd', 'f'] then f else f ++ ".pdf"

/-- `generate_filename_from_pattern` (document_generator.py lines 32-53).
Fallible because the record values flow into a `re.sub` replacement
template (see `parseReplTemplate`). -/
def generate_filename_from_pattern (pattern : String) (data : Record)
    (index : Option Int) : Except String String := do
  let filename ← data.foldlM substField (filenameBase pattern index)
  .ok (filenameFinish filename)

/-! ## The timestamp normalizer (document_generator.py lines 147-191) -/

/-- `DocumentGenerator.is_timestamp` (lines 147-155): numeric, not a
boolean, and inside the fixed plausibility window
`946684800 <= value <= 4000000000000`. -/
def is_timestamp : PyVal → Bool
  | .bool _ => false
  | .int n => 946684800 ≤ n && n ≤ 4000000000000
  | _ => false

/-- Days-since-epoch to civil (year, month, day), floor-division form of
the standard Gregorian conversion; embeds the date part of
`datetime.fromtimestamp` with the process timezone fixed to UTC. -/
def civilFromDays (z : Int) : Int × Int × Int :=
  let z := z + 719468
  let era := Int.fdiv z 146097
  let doe := z - era * 146097
  let yoe := Int.fdiv (doe - Int.fdiv doe 1460 + Int.fdiv doe 36524 - Int.fdiv doe 146096) 365
  let y := yoe + era * 400
  let doy := doe - (365 * yoe + Int.fdiv yoe 4 - Int.fdiv yoe 100)
  let mp := Int.fdiv (5 * doy + 2) 153
  let d := doy - Int.fdiv (153 * mp + 2) 5 + 1
  let m := mp + (if mp < 10 then 3 else -9)
  (y + (if m ≤ 2 then 1 else 0), m, d)

/-- Zero-pad a nonnegative integer to at least `w` digits. -/
def padNum (w : Nat) (n : Int) : String :=
  let s := natToString n.toNat
  String.mk (List.replicate (w - s.length) '0') ++ s

/-- `dt.strftime("%d/%m/%Y")` for the civil date `z` days after the
epoch. -/
def strftimeDMY (z : Int) : String :=
  let ymd := civilFromDays z
  padNum 2 ymd.2.2 ++ "/" ++ padNum 2 ymd.2.1 ++ "/" ++ padNum 4 ymd.1

/-- `DocumentGenerator.format_date_fr` (lines 157-175) at the default
format `"%d/%m/%Y"`.  A numeric value above `10_000_000_000` is divided by
1000 (millisecond-epoch) before `datetime.fromtimestamp`; Python `bool`
is an `int` subclass, so booleans take the numeric branch too.  A
conversion error (timestamp outside the `datetime` year range `1..9999`,
UTC bounds `-62135596800 <= ts < 253402300800` seconds) is caught and
`str(value)` returned.
The civil date of an exact-rational timestamp `ts` is
`civilFromDays ⌊ts / 86400⌋`; for the millisecond branch the embedding
uses the exact identity `⌊(n / 1000) / 86400⌋ = n.fdiv 86400000` (and
scales the range bounds by 1000), keeping all arithmetic in `Int`. -/
def format_date_fr (v : PyVal) : String :=
  match v with
  | .int n =>
    if n > 10000000000 then
      if -62135596800000 ≤ n ∧ n < 253402300800000 then
        strftimeDMY (Int.fdiv n 86400000)
      else pyStr v
    else
      if -62135596800 ≤ n ∧ n < 253402300800 then
        strftimeDMY (Int.fdiv n 86400)
      else pyStr v
  | .bool b => strftimeDMY (Int.fdiv (if b then 1 else 0) 86400)
  | v => pyStr v

/-- `DocumentGenerator.convert_timestamps_in_data` (lines 177-191):
booleans pass through, plausible timestamps are replaced by their French
date string, everything else passes through. -/
def convert_timestamps_in_data (data : Record) : Record :=
  data.map fun kv =>
    match kv.2 with
    | .bool b => (kv.1, .bool b)
    | v => if is_timestamp v then (kv.1, .str (format_date_fr v)) else (kv.1, v)

/-! ## The Jinja evaluation fragment used by `render_template`

`DocumentGenerator.__init__` (line 64) creates the template engine as the
default `jinja2.Environment()`, whose `autoescape` argument defaults to
`False`: no output escaping is applied.  `render_template` (lines
348-356) compiles the raw template string and renders it against the
timestamp-converted record.  The fragment of the Jinja language embedded
here is: literal text (rendered verbatim, after the lexer normalizes
`\r\n`/`\r` to `\n` and, because `keep_trailing_newline` defaults to
`False`, drops one trailing newline), and `{{ identifier }}` variable
substitutions (rendered as `str(value)`, the empty string for a missing
name).  Every other construct — statements `{% %}`, comments `{# #}`,
non-identifier expressions — is outside the fragment and mapped to a
generic template error. -/

/-- One node of a compiled template: a literal character or a variable
substitution. -/
inductive JinjaNode where
  | lit (c : Char) : JinjaNode
  | var (name : String) : JinjaNode
deriving DecidableEq, Repr

/-- Rendering errors of `render_template`.  `sandboxViolation` is the
security error the specification describes; the code base never
constructs it. -/
inductive RenderError where
  | sandboxViolation (pattern : String)
  | templateError (msg : String)
deriving DecidableEq, Repr

/-- Source normalization of the Jinja lexer: `\r\n` and `\r` become
`\n`. -/
def normalizeNewlines : List Char → List Char
  | [] => []
  | '\r' :: '\n' :: rest => '\n' :: normalizeNewlines rest
  | '\r' :: rest => '\n' :: normalizeNewlines rest
  | c :: rest => c :: normalizeNewlines rest

/-- Full source normalization: newline normalization followed by the
`keep_trailing_newline=False` removal of one final newline. -/
def jinjaNormalize (l : List Char) : List Char :=
  let l := normalizeNewlines l
  if l.getLast? = some '\n' then l.dropLast else l

/-- Split at the first `}}` (the variable-end token): returns the part
before it and the part after it. -/
def splitAtBB : List Char → Option (List Char × List Char)
  | [] => none
  | c :: cs =>
    if c = '}' ∧ cs.head? = some '}' then some ([], cs.tail)
    else
      match splitAtBB cs with
      | some ab => some (c :: ab.1, ab.2)
      | none => none

theorem splitAtBB_length (l : List Char) (a b : List Char)
    (h : splitAtBB l = some (a, b)) : b.length < l.length := by
  induction l generalizing a b with
  | nil => simp [splitAtBB] at h
  | cons c cs ih =>
    rw [splitAtBB] at h
    split at h
    · simp only [Option.some.injEq, Prod.mk.injEq] at h
      obtain ⟨-, rfl⟩ := h
      cases cs <;> simp <;> omega
    · revert h
      split
      · rename_i ab hab
        intro h
        simp only [Option.some.injEq, Prod.mk.injEq] at h
        obtain ⟨-, rfl⟩ := h
        have := ih ab.1 ab.2 (by rw [hab])
        simp only [List.length_cons]
        omega
      · intro h; exact absurd h (by simp)

/-- Identifier characters (ASCII range of Python identifiers). -/
def isIdentChar (c : Char) : Bool := c.isAlphanum || c = '_'

/-- Leading identifier character. -/
def isIdentStart (c : Char) : Bool := c.isAlpha || c = '_'

/-- The expression between `{{` and `}}`: whitespace-trimmed; inside the
embedded fragment only when it is a plain identifier. -/
def parseVarExpr (inner : List Char) : Option String :=
  match pyStrip inner with
  | [] => none
  | c :: cs => if isIdentStart c && cs.all isIdentChar then some (String.mk (c :: cs)) else none

/-- Compile a (normalized) template source into nodes; `none` for any
construct outside the embedded fragment.  Structural recursion on a fuel
counter: every recursive call shortens the list by at least one character
(`splitAtBB_length` for the variable case), so `fuel = length` never runs
out and the fuel-exhausted equation is unreachable. -/
def jinjaScanF : Nat → List Char → Option (List JinjaNode)
  | _, [] => some []
  | 0, _ :: _ => Option.none
  | fuel + 1, c :: cs =>
    if c = '{' then
      match cs with
      | c2 :: cs2 =>
        if c2 = '{' then
          match splitAtBB cs2 with
          | some ab =>
            match parseVarExpr ab.1, jinjaScanF fuel ab.2 with
            | some name, some ns => some (.var name :: ns)
            | _, _ => Option.none
          | Option.none => Option.none
        else if c2 = '%' then Option.none
        else if c2 = '#' then Option.none
        else
          match jinjaScanF fuel cs with
          | some ns => some (.lit c :: ns)
          | Option.none => Option.none
      | [] => some [.lit c]
    else
      match jinjaScanF fuel cs with
      | some ns => some (.lit c :: ns)
      | Option.none => Option.none

/-- Compile a (normalized) template source into nodes. -/
def jinjaScan (l : List Char) : Option (List JinjaNode) := jinjaScanF l.length l

/-- Ordered lookup in a record (Python `dict` access). -/
def pyLookup : Record → String → Option PyVal
  | [], _ => none
  | kv :: rest, key => if kv.1 = key then some kv.2 else pyLookup rest key

/-- Render one node: literal text verbatim; a variable as `str(value)`
with no escaping (`autoescape=False`), the empty string when the name is
missing (Jinja `Undefined`). -/
def evalNode (data : Record) : JinjaNode → List Char
  | .lit c => [c]
  | .var name =>
    match pyLookup data name with
    | some v => (pyStr v).data
    | none => []

/-- Render a compiled template against a record. -/
def jinjaEval (nodes : List JinjaNode) (data : Record) : List Char :=
  (nodes.map (evalNode data)).flatten

/-- `DocumentGenerator.render_template` (lines 348-356): convert the
timestamps of the record, compile the raw template string, render.  No
scan of the template text precedes compilation. -/
def render_template (template_content : String) (data : Record) :
    Except RenderError String :=
  let converted := convert_timestamps_in_data data
  match jinjaScan (jinjaNormalize template_content.data) with
  | some nodes => .ok (String.mk (jinjaEval nodes converted))
  | none => .error (.templateError "template error")

/-- Template text free of the three Jinja delimiters `{{`, `{%`, `{#`:
such text is compiled to pure literal nodes. -/
def noJinjaDelims : List Char → Bool
  | [] => true
  | c :: cs =>
    if c = '{' ∧ (cs.head? = some '{' ∨ cs.head? = some '%' ∨ cs.head? = some '#')
    then false
    else noJinjaDelims cs

/-! ## Post-render cleanup (document_generator.py lines 366-368)

`generate_html` applies two `re.sub` passes to the rendered body:
`re.sub(r'style="color:\s*rgb\([^)]+\);?"', '', ·)` and
`re.sub(r'\s*style=""\s*', ' ', ·)`.  Both patterns start with mandatory
literal text or a possibly-empty whitespace run followed by literal text,
so the left-to-right non-overlapping `re.sub` scan is embedded as: at
each position try to match, on success emit the replacement and resume
after the match, otherwise keep one character and advance. -/

/-- A match of `style="color:\s*rgb\([^)]+\);?"` starting exactly here;
returns the remainder after the match. -/
def colorStyleMatchAt (l : List Char) : Option (List Char) := do
  let l ← matchLiteral "style=\"color:".data l
  let l := l.dropWhile isPySpace
  let l ← matchLiteral "rgb(".data l
  let inside := l.takeWhile (· ≠ ')')
  if inside = [] then none
  else
    match l.dropWhile (· ≠ ')') with
    | ')' :: ';' :: '"' :: rest => some rest
    | ')' :: '"' :: rest => some rest
    | _ => none

/-- A match of `\s*style=""\s*` starting exactly here; returns the
remainder after the match. -/
def emptyStyleMatchAt (l : List Char) : Option (List Char) := do
  let l1 := l.dropWhile isPySpace
  let l2 ← matchLiteral "style=\"\"".data l1
  some (l2.dropWhile isPySpace)

/-- `re.sub(r'style="color:\s*rgb\([^)]+\);?"', '', s)`. -/
def cleanColorStyle (s : String) : String :=
  String.mk (reSubScan colorStyleMatchAt [] s.data.length s.data)

/-- `re.sub(r'\s*style=""\s*', ' ', s)`. -/
def cleanEmptyStyle (s : String) : String :=
  String.mk (reSubScan emptyStyleMatchAt [' '] s.data.length s.data)

/-! ## Document assembly (document_generator.py lines 193-256 and 358-524) -/

/-- Python falsiness of an `Optional[str]` argument: `None` or `""`. -/
def optFalsy : Option String → Bool
  | Option.none => true
  | some s => s = ""

/-- `DocumentGenerator.generate_entete_with_logo` (lines 218-243): the
two-column header table, empty when both inputs are falsy; the logo cell
and the service-name cell are each rendered only when their input is
truthy; the service name has `\r\n` normalized and newlines turned into
`<br>`. -/
def generate_entete_with_logo (logo_data_url service_name : Option String) : String :=
  if optFalsy logo_data_url && optFalsy service_name then ""
  else
    let service_html :=
      if !optFalsy service_name then
        String.intercalate "<br>"
          ((pyReplace (service_name.getD "") "\r\n" "\n").splitOn "\n")
      else ""
    "\n        <div style=\"display: table; width: 100%; margin-bottom: 20pt;\">\n            <div style=\"display: table-row;\">\n                <div style=\"display: table-cell; width: 50%; vertical-align: top;\">\n                    "
    ++ (if !optFalsy logo_data_url then
          "<img src=\"" ++ logo_data_url.getD "" ++ "\" alt=\"Logo\" style=\"width: 80pt; height: auto; display: block;\">"
        else "")
    ++ "\n                </div>\n                <div style=\"display: table-cell; width: 50%; vertical-align: top; text-align: right;\">\n                    "
    ++ (if !optFalsy service_name then
          "<div style=\"font-family: Marianne, sans-serif; font-size: 10pt; line-height: 1.3;\">" ++ service_html ++ "</div>"
        else "")
    ++ "\n                </div>\n            </div>\n        </div>\n        <hr style=\"border: none; border-top: 2pt solid #000091; margin: 15pt 0 20pt 0; padding: 0;\" />\n        "

/-- `DocumentGenerator.generate_signature` (lines 245-256): the
right-aligned signature image block, empty for a falsy input. -/
def generate_signature (signature_data_url : Option String) : String :=
  if optFalsy signature_data_url then ""
  else
    "\n        <div class=\"signature-container\" style=\"margin-top: 10pt; text-align: right;\">\n            <img src=\""
    ++ signature_data_url.getD ""
    ++ "\" alt=\"Signature\" style=\"width: 100pt; height: auto; display: inline-block;\">\n        </div>\n        "

/-- `dict.get(key, "")`. -/
def dictGetD (d : List (String × String)) (k : String) : String :=
  match d.lookup k with
  | some v => v
  | Option.none => ""

/-- `DocumentGenerator.get_font_face_css` (lines 193-216): empty for an
empty font cache, otherwise the two fixed `@font-face` rules with the
cached data URIs substituted. -/
def get_font_face_css (fonts_cache : List (String × String)) : String :=
  if fonts_cache = [] then ""
  else
    "\n        @font-face \x7b\n            font-family: \x27Marianne\x27;\n            src: url(\x27"
    ++ dictGetD fonts_cache "marianne_regular_woff2"
    ++ "\x27) format(\x27woff2\x27),\n                 url(\x27"
    ++ dictGetD fonts_cache "marianne_regular_woff"
    ++ "\x27) format(\x27woff\x27);\n            font-weight: 400;\n            font-style: normal;\n        \x7d\n        \n        @font-face \x7b\n            font-family: \x27Marianne\x27;\n            src: url(\x27"
    ++ dictGetD fonts_cache "marianne_bold_woff2"
    ++ "\x27) format(\x27woff2\x27),\n                 url(\x27"
    ++ dictGetD fonts_cache "marianne_bold_woff"
    ++ "\x27) format(\x27woff\x27);\n            font-weight: 700;\n            font-style: normal;\n        \x7d\n        "

/-- The fixed opening of the document shell f-string (line 375), up to the
`{font_face_css}` substitution point. -/
def htmlShellA : String :=
  "<!DOCTYPE html>\n<html lang=\"fr\">\n<head>\n    <meta charset=\"UTF-8\">\n    <title>Document de publipostage</title>\n    <style>\n        "
def htmlShellCss : String :=
  "\n" ++ String.intercalate "\n" [
  "        ",
  "        body \x7b",
  "            font-family: \x27Marianne\x27, \x27Arial\x27, \x27Helvetica\x27, sans-serif;",
  "            line-height: 1.6;",
  "            color: #000000;",
  "            margin: 2cm;",
  "        \x7d",
  "        ",
  "        p \x7b",
  "            font-family: \x27Marianne\x27, sans-serif;",
  "            font-size: 11pt;",
  "            line-height: 1.4;",
  "            margin-top: 0;",
  "            margin-bottom: 6pt;",
  "        \x7d",
  "        ",
  "        /* Formats de taille de Quill */",
  "        .ql-size-8pt \x7b",
  "            font-size: 8pt !important;",
  "            color: #666666 !important;",
  "        \x7d",
  "        ",
  "        .ql-size-18pt \x7b",
  "            font-size: 18pt;",
  "        \x7d",
  "        ",
  "        .ql-size-24pt \x7b",
  "            font-size: 24pt;",
  "        \x7d",
  "        ",
  "        /* Style \"pied de page\" pour l\x27Ã©diteur */",
  "        .footer-style \x7b",
  "            font-family: \x27Marianne\x27, sans-serif !important;",
  "            font-size: 8pt !important;",
  "            font-weight: 400 !important;",
  "            color: #666666 !important;",
  "            line-height: 1.3 !important;",
  "        \x7d",
  "        ",
  "        .ql-align-left \x7b",
  "            text-align: left !important;",
  "        \x7d",
  "        ",
  "        .ql-align-center \x7b",
  "            text-align: center !important;",
  "        \x7d",
  "        ",
  "        .ql-align-right \x7b",
  "            text-align: right !important;",
  "        \x7d",
  "        ",
  "        .ql-align-justify \x7b",
  "            text-align: justify !important;",
  "        \x7d",
  "        ",
  "        h1 \x7b",
  "            font-family: \x27Marianne\x27, sans-serif;",
  "            font-size: 24pt;",
  "            font-weight: 700;",
  "            margin-top: 12pt;",
  "            margin-bottom: 6pt;",
  "        \x7d",
  "        ",
  "        h2 \x7b",
  "            font-family: \x27Marianne\x27, sans-serif;",
  "            font-size: 18pt;",
  "            font-weight: 700;",
  "            margin-top: 10pt;",
  "            margin-bottom: 5pt;",
  "        \x7d",
  "        ",
  "        h3 \x7b",
  "            font-family: \x27Marianne\x27, sans-serif;",
  "            font-size: 14pt;",
  "            font-weight: 700;",
  "            margin-top: 8pt;",
  "            margin-bottom: 4pt;",
  "        \x7d",
  "        ",
  "        strong, b \x7b",
  "            font-weight: 700;",
  "        \x7d",
  "        ",
  "        em, i \x7b",
  "            font-style: italic;",
  "        \x7d",
  "        ",
  "        u \x7b",
  "            text-decoration: underline;",
  "        \x7d",
  "        ",
  "        ul, ol \x7b",
  "            font-family: \x27Marianne\x27, sans-serif;",
  "            font-size: 11pt;",
  "            margin-bottom: 6pt;",
  "            padding-left: 20pt;",
  "            line-height: 1.4;",
  "        \x7d",
  "        ",
  "        li \x7b",
  "            margin-bottom: 3pt;",
  "        \x7d",
  "        ",
  "        table \x7b",
  "            font-family: \x27Marianne\x27, sans-serif;",
  "            width: 100%;",
  "            border-collapse: collapse;",
  "            margin-bottom: 10pt;",
  "            font-size: 11pt;",
  "        \x7d",
  "        ",
  "        th, td \x7b",
  "            border: 1pt solid #ccc;",
  "            padding: 5pt;",
  "            text-align: left;",
  "        \x7d",
  "        ",
  "        th \x7b",
  "            background-color: #f0f0f0;",
  "            font-weight: 700;",
  "        \x7d",
  "        ",
  "        .signature-container \x7b",
  "            margin-top: 30pt;",
  "            text-align: right;",
  "        \x7d",
  "        "] ++ "\n        "

/-- The shell between `{template_css}` and `{entete_html}`. -/
def htmlShellB : String := "\n    </style>\n</head>\n<body>\n    "

/-- The shell between `{entete_html}` and `{rendered_content}`. -/
def htmlShellC : String := "\n    <div class=\"contenu\">\n        "

/-- The shell between `{rendered_content}` and `{signature_html}`. -/
def htmlShellD : String := "\n        "

/-- The closing of the shell after `{signature_html}`. -/
def htmlShellE : String := "\n    </div>\n</body>\n</html>"

/-- The document shell f-string (lines 375-519) as a function of its five
substitution points. -/
def assembleHtml (font_face_css template_css entete rendered signature : String) : String :=
  htmlShellA ++ font_face_css ++ htmlShellCss ++ template_css ++ htmlShellB
    ++ entete ++ htmlShellC ++ rendered ++ htmlShellD ++ signature ++ htmlShellE

/-- `DocumentGenerator.generate_html` (lines 358-524): render the
template, apply the two cleanup passes, build header and signature,
assemble the shell.  `fonts_cache` is the instance state loaded at
startup. -/
def generate_html (template_content template_css : String) (data : Record)
    (logo signature service_name : Option String)
    (fonts_cache : List (String × String)) : Except RenderError String := do
  let rendered_content ← render_template template_content data
  let rendered_content := cleanColorStyle rendered_content
  let rendered_content := cleanEmptyStyle rendered_content
  let entete_html := generate_entete_with_logo logo service_name
  let signature_html := generate_signature signature
  let font_face_css := get_font_face_css fonts_cache
  .ok (assembleHtml font_face_css template_css entete_html rendered_content signature_html)

/-! ## Worker-session teardown (document_generator.py lines 99-114)

`_cleanup_thread_browser` closes, inside one `try`, the browsing context,
the browser process and the Playwright controller, each guarded only by a
`hasattr`/truthiness check; the single `except` clause logs.  The embedding
makes the thread-local state explicit (which of the three handles are
set) and takes one oracle flag per close call saying whether that call
raises. -/

/-- The thread-local browser state: which handles are currently set. -/
structure TLState where
  context : Bool
  browser : Bool
  playwright : Bool
deriving DecidableEq, Repr

/-- One teardown action, in source order. -/
inductive CleanStep where
  | closeContext : CleanStep
  | closeBrowser : CleanStep
  | stopPlaywright : CleanStep
deriving DecidableEq, Repr

/-- Result of `_cleanup_thread_browser`: the close calls attempted in
order, whether an exception escaped to the caller, and the state left
behind. -/
structure CleanupResult where
  steps : List CleanStep
  raised : Bool
  final : TLState
deriving DecidableEq, Repr

/-- `DocumentGenerator._cleanup_thread_browser` (lines 99-114).  The three
close calls run in order inside a single `try`; a raising call jumps to
the `except` handler (which logs and returns), so the remaining calls are
skipped and the raising handle is not cleared.  `ctxFails`, `brwFails`,
`pwFails` say whether `context.close()`, `browser.close()`,
`playwright.stop()` raise. -/
def cleanup_thread_browser (st : TLState) (ctxFails brwFails pwFails : Bool) :
    CleanupResult :=
  let s1 : List CleanStep := if st.context then [.closeContext] else []
  if st.context && ctxFails then
    { steps := s1, raised := false, final := st }
  else
    let st := { st with context := false }
    let s2 := s1 ++ (if st.browser then [.closeBrowser] else [])
    if st.browser && brwFails then
      { steps := s2, raised := false, final := st }
    else
      let st := { st with browser := false }
      let s3 := s2 ++ (if st.playwright then [.stopPlaywright] else [])
      if st.playwright && pwFails then
        { steps := s3, raised := false, final := st }
      else
        { steps := s3, raised := false, final := { st with playwright := false } }

/-- The close calls the teardown would attempt if nothing raised:
every set handle, in source order. -/
def cleanupStepsFor (st : TLState) : List CleanStep :=
  (if st.context then [CleanStep.closeContext] else [])
    ++ (if st.browser then [CleanStep.closeBrowser] else [])
    ++ (if st.playwright then [CleanStep.stopPlaywright] else [])

/-! ## PDF rasterization (document_generator.py lines 526-567)

`generate_pdf` is embedded against an oracle for the browser and file
system: whether `context.new_page()` raises, whether the
load/evaluate/wait sequence raises, whether `page.pdf` raises, and what
file (byte count) the engine leaves at the destination when `page.pdf`
returns.  `page.close()` sits in a `finally` and is assumed not to raise
itself. -/

/-- Oracle for one `generate_pdf` call. -/
structure PdfEnv where
  newPageRaises : Bool
  loadRaises : Bool
  pdfRaises : Bool
  written : Option Nat
deriving DecidableEq, Repr

/-- Outcome of one `generate_pdf` call: whether the call returned the
output path (rather than raising), whether the page was closed, and the
file present at the destination (byte count). -/
structure PdfOutcome where
  returned : Bool
  pageClosed : Bool
  file : Option Nat
deriving DecidableEq, Repr

/-- `DocumentGenerator.generate_pdf` (lines 526-567): obtain a page, load
the content, rasterize, close the page in a `finally`; afterwards return
the path if `os.path.exists(output_path)` and raise otherwise; any raise
propagates through the outer `except` (which logs and re-raises). -/
def generate_pdf (env : PdfEnv) : PdfOutcome :=
  if env.newPageRaises then
    { returned := false, pageClosed := false, file := Option.none }
  else if env.loadRaises then
    { returned := false, pageClosed := true, file := Option.none }
  else if env.pdfRaises then
    { returned := false, pageClosed := true, file := Option.none }
  else
    match env.written with
    | some n => { returned := true, pageClosed := true, file := some n }
    | Option.none => { returned := false, pageClosed := true, file := Option.none }

/-! ## Batch orchestration (document_generator.py lines 569-603)

`generate_multiple_documents` iterates the records with a per-record
`try`/`except`-`continue` and a `finally` that calls
`_cleanup_thread_browser`.  The embedding abstracts one record's
processing into an oracle verdict: either the whole
filename/html/pdf chain succeeds and the output file exists, or some step
of it raises. -/

/-- Oracle verdict for one record of a batch. -/
inductive RecOutcome where
  | success : RecOutcome
  | failure : RecOutcome
deriving DecidableEq, Repr

/-- One observable event of a batch run: an output path appended for
record `i`, the logged per-record error for record `i`, or one invocation
of `_cleanup_thread_browser`. -/
inductive BatchEvent where
  | generated (i : Nat) : BatchEvent
  | recordError (i : Nat) : BatchEvent
  | cleanup : BatchEvent
deriving DecidableEq, Repr

/-- `DocumentGenerator.generate_multiple_documents` (lines 569-603),
started at 1-based index `i` (the code starts at `enumerate(records, 1)`,
i.e. `i = 1`).  Returns the list of indices whose output path was
appended to `generated_files`, and the event trace.  The loop body
catches any per-record exception (`except`/`continue`); iterating the
record list itself cannot raise; the `finally` block runs the teardown
once the iteration ends, whatever happened inside. -/
def generate_multiple_documents (i : Nat) : List RecOutcome → List Nat × List BatchEvent
  | [] => ([], [.cleanup])
  | .success :: rest =>
    let r := generate_multiple_documents (i + 1) rest
    (i :: r.1, .generated i :: r.2)
  | .failure :: rest =>
    let r := generate_multiple_documents (i + 1) rest
    (r.1, .recordError i :: r.2)

/-- The records a batch run succeeds on: the success verdicts, counted. -/
def successCount (outcomes : List RecOutcome) : Nat :=
  (outcomes.filter (· = RecOutcome.success)).length

/-! ## Specification-side definitions

These two definitions follow the wording of the specification (not the
source); they exist to compare the specified behaviour with the embedded
code. -/

/-- `p` occurs as a contiguous run inside `l`. -/
def listIsInfix (p : List Char) : List Char → Bool
  | [] => p.isEmpty
  | c :: cs => (matchLiteral p (c :: cs)).isSome || listIsInfix p cs

/-- Modelled from the spec: a template contains a forbidden construct when
its text has a cross-template inclusion/import/inheritance directive or a
reflection-style attribute access pattern (dunder access). -/
def forbiddenConstructSpec (template : String) : Bool :=
  listIsInfix "\x7b% include".data template.data ||
  listIsInfix "\x7b% import".data template.data ||
  listIsInfix "\x7b% extends".data template.data ||
  listIsInfix "\x7b% from".data template.data ||
  listIsInfix "__".data template.data

/-- Modelled from the spec: automatic output-escaping of markup-unsafe
characters, as the `autoescape=True` engine configuration would perform
(the `markupsafe.escape` table). -/
def htmlEscapeSpec (s : String) : String :=
  String.mk ((s.data.map fun c =>
    if c = '&' then "&amp;".data
    else if c = '<' then "&lt;".data
    else if c = '>' then "&gt;".data
    else if c = '"' then "&#34;".data
    else if c = '\x27' then "&#39;".data
    else [c]).flatten)

/-! ## Helper lemmas -/

/-- `listEndsWith` holds after appending the suffix. -/
theorem listEndsWith_append (l p : List Char) : listEndsWith (l ++ p) p = true := by
  simp only [listEndsWith, List.length_append, Nat.add_sub_cancel,
    List.drop_left, decide_eq_true_eq]

/-- `(a ++ b).data` unfolds to list append. -/
theorem string_data_append (a b : String) : (a ++ b).data = a.data ++ b.data := rfl

/-- Building a string back from its own character list. -/
theorem string_mk_data (s : String) : String.mk s.data = s := rfl

/-- With enough fuel, delimiter-free text compiles to its literal
nodes. -/
theorem jinjaScanF_text (fuel : Nat) (l : List Char) (hle : l.length ≤ fuel)
    (h : noJinjaDelims l = true) :
    jinjaScanF fuel l = some (l.map JinjaNode.lit) := by
  induction fuel generalizing l with
  | zero =>
    cases l with
    | nil => rfl
    | cons c cs => simp only [List.length_cons] at hle; omega
  | succ f ih =>
    cases l with
    | nil => rfl
    | cons c cs =>
      rw [noJinjaDelims] at h
      by_cases hcond : c = '{' ∧
          (cs.head? = some '{' ∨ cs.head? = some '%' ∨ cs.head? = some '#')
      · rw [if_pos hcond] at h
        exact absurd h (by simp)
      · rw [if_neg hcond] at h
        have hle2 : cs.length ≤ f := by simp only [List.length_cons] at hle; omega
        rw [jinjaScanF.eq_def]
        by_cases hc : c = '{'
        · subst hc
          cases cs with
          | nil => rfl
          | cons c2 cs2 =>
            have hc2 : ¬c2 = '{' ∧ ¬c2 = '%' ∧ ¬c2 = '#' := by
              simp only [List.head?, Option.some.injEq] at hcond
              tauto
            simp only [if_pos rfl, if_neg hc2.1, if_neg hc2.2.1, if_neg hc2.2.2]
            rw [ih _ hle2 h]
            simp
        · simp only [if_neg hc]
          rw [ih _ hle2 h]
          simp

/-- Delimiter-free text compiles to its literal nodes. -/
theorem jinjaScan_text (l : List Char) (h : noJinjaDelims l = true) :
    jinjaScan l = some (l.map JinjaNode.lit) :=
  jinjaScanF_text l.length l (Nat.le_refl _) h

/-- Literal nodes render to their own characters. -/
theorem jinjaEval_lit (l : List Char) (data : Record) :
    jinjaEval (l.map JinjaNode.lit) data = l := by
  induction l with
  | nil => rfl
  | cons c cs ih =>
    simp only [List.map_cons, jinjaEval, List.flatten] at ih ⊢
    rw [ih]
    rfl

/-- Rendering a template whose normalized source has no Jinja delimiters
returns that normalized source, for every record. -/
theorem render_template_text (s : String) (data : Record)
    (h : noJinjaDelims (jinjaNormalize s.data) = true) :
    render_template s data = .ok (String.mk (jinjaNormalize s.data)) := by
  unfold render_template
  rw [jinjaScan_text _ h]
  simp only [jinjaEval_lit]

/-! ## Claim C1 — template sandbox -/

/-- A template whose raw text contains a reflection-style attribute
access pattern, as literal text (no Jinja delimiters). -/
def c1Template : String := "total __class__ fin"

/-- C1 counterexample: `c1Template` contains a forbidden construct in the
sense of the specification, yet `render_template` renders it successfully
and verbatim on any record — no SandboxViolation, no failure, full output
returned.  The code performs no sandbox scan at all. -/
theorem claim_C1_counterexample :
    forbiddenConstructSpec c1Template = true ∧
    render_template c1Template [] = Except.ok c1Template := by
  exact ⟨by decide, rfl⟩

/-- C1 (amended): `render_template` performs no sandbox scan.  A template
whose text contains a forbidden construct (per the specification wording)
but consists of plain text — no `\x7b\x7b`/`\x7b%`/`\x7b#` delimiter — renders
successfully for every record, returning its own (newline-normalized)
text rather than a SandboxViolation. -/
theorem claim_C1_amended (s : String) (data : Record)
    (hforbidden : forbiddenConstructSpec s = true)
    (hplain : noJinjaDelims (jinjaNormalize s.data) = true) :
    render_template s data = Except.ok (String.mk (jinjaNormalize s.data)) :=
  render_template_text s data hplain

/-- C1 witness: the amended theorem applied to `c1Template` and a
nonempty record. -/
theorem claim_C1_witness :
    forbiddenConstructSpec c1Template = true ∧
    noJinjaDelims (jinjaNormalize c1Template.data) = true ∧
    render_template c1Template [("x", PyVal.int 1)] =
      Except.ok (String.mk (jinjaNormalize c1Template.data)) :=
  ⟨by decide, by decide,
    claim_C1_amended c1Template [("x", PyVal.int 1)] (by decide) (by decide)⟩

/-! ## Claim C2 — output escaping -/

/-- C2 counterexample: the engine is built as the default
`jinja2.Environment()` (document_generator.py line 64), whose
`autoescape` defaults to `False`.  A record value containing
markup-significant characters is substituted verbatim — not escaped as
the specified `autoescape` behaviour (`htmlEscapeSpec`) would produce. -/
theorem claim_C2_counterexample :
    render_template "\x7b\x7b x \x7d\x7d" [("x", PyVal.str "<b>&")] =
      Except.ok "<b>&" ∧
    htmlEscapeSpec "<b>&" = "&lt;b&gt;&amp;" ∧
    ("<b>&" : String) ≠ htmlEscapeSpec "<b>&" := by
  exact ⟨rfl, rfl, by decide⟩

/-- C2 (amended): template evaluation runs with output-escaping disabled
(the `Environment()` default), so a record string value substituted by a
`\x7b\x7b x \x7d\x7d` placeholder appears in the rendered output exactly as it
is, markup-significant characters included. -/
theorem claim_C2_amended (s : String) :
    render_template "\x7b\x7b x \x7d\x7d" [("x", PyVal.str s)] = Except.ok s := by
  have h : render_template "\x7b\x7b x \x7d\x7d" [("x", PyVal.str s)] =
      Except.ok (String.mk (s.data ++ [])) := rfl
  rw [h, List.append_nil]

/-! ## Claim C3 — teardown guarding -/

/-- C3 counterexample: with all three handles set, a failure of
`context.close()` aborts the whole teardown — `browser.close()` and
`playwright.stop()` are never attempted, because the three steps share a
single `try`/`except` instead of being individually guarded. -/
theorem claim_C3_counterexample :
    (cleanup_thread_browser ⟨true, true, true⟩ true false false).steps =
      [CleanStep.closeContext] ∧
    (cleanup_thread_browser ⟨true, true, true⟩ true false false).raised = false := by
  decide

/-- C3 (amended): teardown attempts to close the browsing context, then
the browser process, then the Playwright controller, in that order, under
one shared guard: an exception in one step skips the remaining steps; the
exception is logged and never propagated to the caller.  When no step
fails, every set handle is closed, in source order. -/
theorem claim_C3_amended (st : TLState) (f1 f2 f3 : Bool) :
    (cleanup_thread_browser st f1 f2 f3).raised = false ∧
    (f1 = false → f2 = false → f3 = false →
      (cleanup_thread_browser st f1 f2 f3).steps = cleanupStepsFor st) := by
  rcases st with ⟨a, b, c⟩
  cases a <;> cases b <;> cases c <;> cases f1 <;> cases f2 <;> cases f3 <;> decide

/-- C3 witness: the amended theorem at the full state with no failures. -/
theorem claim_C3_witness :
    (cleanup_thread_browser ⟨true, true, true⟩ false false false).raised = false ∧
    (cleanup_thread_browser ⟨true, true, true⟩ false false false).steps =
      [CleanStep.closeContext, CleanStep.closeBrowser, CleanStep.stopPlaywright] := by
  have h := claim_C3_amended ⟨true, true, true⟩ false false false
  exact ⟨h.1, by rw [h.2 rfl rfl rfl]; decide⟩

/-! ## Claim C4 — batch failure isolation -/

/-- C4: in a batch run, a per-record failure is caught and the remaining
records are still processed: the returned path list has exactly one entry
per successful record (a failed record contributes none), and the
worker-session teardown runs exactly once, after all records; in
particular a batch of five records whose third fails yields four paths. -/
theorem claim_C4 :
    (∀ (i : Nat) (outs : List RecOutcome),
      (generate_multiple_documents i outs).2.count BatchEvent.cleanup = 1 ∧
      (generate_multiple_documents i outs).1.length = successCount outs) ∧
    (generate_multiple_documents 1
      [RecOutcome.success, RecOutcome.success, RecOutcome.failure,
       RecOutcome.success, RecOutcome.success]).1.length = 4 ∧
    (generate_multiple_documents 1
      [RecOutcome.success, RecOutcome.success, RecOutcome.failure,
       RecOutcome.success, RecOutcome.success]).2.count BatchEvent.cleanup = 1 := by
  refine ⟨?_, by decide, by decide⟩
  intro i outs
  induction outs generalizing i with
  | nil => simp [generate_multiple_documents, successCount]
  | cons o rest ih =>
    cases o with
    | success =>
      have hcnt : (BatchEvent.generated i == BatchEvent.cleanup) = false := rfl
      have h := ih (i + 1)
      simp only [generate_multiple_documents, List.count_cons, hcnt, if_false,
        List.length_cons, successCount, List.filter] at h ⊢
      simp_all [successCount]
    | failure =>
      have hcnt : (BatchEvent.recordError i == BatchEvent.cleanup) = false := rfl
      have h := ih (i + 1)
      simp only [generate_multiple_documents, List.count_cons, hcnt, if_false,
        List.length_cons, successCount, List.filter] at h ⊢
      simp_all [successCount]

/-! ## Claim C6 — PDF rasterization postconditions -/

/-- C6 counterexample: the code checks only `os.path.exists`, never the
size; when the engine leaves an empty (0-byte) file, `generate_pdf`
returns success with an empty destination file, contradicting the
claimed is-non-empty postcondition. -/
theorem claim_C6_counterexample :
    generate_pdf ⟨false, false, false, some 0⟩ =
      { returned := true, pageClosed := true, file := some 0 } := by
  decide

/-- C6 (amended): when `generate_pdf` returns successfully the
destination file exists (but may be empty — only existence is checked);
when the engine reported success yet no file materialized, `generate_pdf`
raises instead of returning; and once a page was obtained, it is closed
whether rasterization succeeds or fails. -/
theorem claim_C6_amended (env : PdfEnv) :
    ((generate_pdf env).returned = true → (generate_pdf env).file.isSome = true) ∧
    (env.newPageRaises = false → env.loadRaises = false → env.pdfRaises = false →
      env.written = Option.none → (generate_pdf env).returned = false) ∧
    (env.newPageRaises = false → (generate_pdf env).pageClosed = true) := by
  rcases env with ⟨p, l, r, w⟩
  cases p <;> cases l <;> cases r <;> cases w <;>
    simp [generate_pdf]

/-- C6 witness: the amended theorem at concrete oracles — a successful
run with a 1200-byte output, and a run where the engine wrote nothing. -/
theorem claim_C6_witness :
    (generate_pdf ⟨false, false, false, some 1200⟩).file.isSome = true ∧
    (generate_pdf ⟨false, false, false, Option.none⟩).returned = false ∧
    (generate_pdf ⟨false, false, false, some 1200⟩).pageClosed = true :=
  ⟨(claim_C6_amended ⟨false, false, false, some 1200⟩).1 (by decide),
   (claim_C6_amended ⟨false, false, false, Option.none⟩).2.1 rfl rfl rfl rfl,
   (claim_C6_amended ⟨false, false, false, some 1200⟩).2.2 rfl⟩

/-! ## Claim C7 — millisecond-epoch division -/

/-- C7: a numeric field above `10_000_000_000` is divided by 1000
(millisecond-epoch to second-epoch) before the date conversion, so a
millisecond value and its second-epoch counterpart format to the same
calendar date; in particular the record field `1700000000000` normalizes
to the same `"DD/MM/YYYY"` string as `1700000000` (that string being
`"14/11/2023"` in the UTC embedding of `fromtimestamp`). -/
theorem claim_C7 :
    (∀ m : Int, 10000000 < m → m ≤ 4000000000 →
      format_date_fr (PyVal.int (1000 * m)) = format_date_fr (PyVal.int m)) ∧
    convert_timestamps_in_data [("date", PyVal.int 1700000000000)] =
      convert_timestamps_in_data [("date", PyVal.int 1700000000)] ∧
    format_date_fr (PyVal.int 1700000000) = "14/11/2023" := by
  refine ⟨?_, by decide, by decide⟩
  intro m h1 h2
  have hdiv : Int.fdiv (1000 * m) 86400000 = Int.fdiv m 86400 := by
    rw [Int.fdiv_eq_ediv _ (by norm_num), Int.fdiv_eq_ediv _ (by norm_num)]
    rw [show (86400000 : Int) = 1000 * 86400 by norm_num]
    exact Int.mul_ediv_mul_of_pos _ _ (by norm_num)
  simp only [format_date_fr]
  rw [if_pos (by omega : (1000 * m : Int) > 10000000000),
      if_neg (by omega : ¬((m : Int) > 10000000000)),
      if_pos (⟨by omega, by omega⟩ :
        (-62135596800000 ≤ (1000 * m : Int) ∧ (1000 * m : Int) < 253402300800000)),
      if_pos (⟨by omega, by omega⟩ :
        (-62135596800 ≤ (m : Int) ∧ (m : Int) < 253402300800)),
      hdiv]

/-- C7 witness: the division theorem applied at the scenario value. -/
theorem claim_C7_witness :
    format_date_fr (PyVal.int (1000 * 1700000000)) =
      format_date_fr (PyVal.int 1700000000) :=
  claim_C7.1 1700000000 (by decide) (by decide)

/-! ## Claim C5 — filename truncation and extension -/

/-- The final step of the filename engine always yields a name ending in
`.pdf` up to ASCII case. -/
theorem filenameFinish_endsWith (f : String) :
    listEndsWith (pyLower (filenameFinish f).data) ['.', 'p', 'd', 'f'] = true := by
  unfold filenameFinish
  by_cases hend : listEndsWith
      (pyLower (sanitize_filename (collapseWs f)).data) ['.', 'p', 'd', 'f'] = true
  · rw [if_pos hend]
    exact hend
  · rw [if_neg hend, string_data_append]
    unfold pyLower
    rw [List.map_append, show List.map Char.toLower ".pdf".data = ['.', 'p', 'd', 'f'] by decide]
    exact listEndsWith_append _ _

/-- A character-wise map that can only produce `'.'` from `'.'` preserves
dot-freeness. -/
theorem map_not_mem_dot (l : List Char) (f : Char → Char)
    (hf : ∀ c, f c = '.' → c = '.') (h : '.' ∉ l) : '.' ∉ l.map f := by
  intro hmem
  obtain ⟨a, ha, hfa⟩ := List.mem_map.mp hmem
  exact h ((hf a hfa) ▸ ha)

/-- `pyStrip` keeps only characters of its input. -/
theorem pyStrip_not_mem (l : List Char) (h : '.' ∉ l) : '.' ∉ pyStrip l := by
  intro hmem
  unfold pyStrip at hmem
  rw [List.mem_reverse] at hmem
  have h2 := (List.dropWhile_sublist _).subset hmem
  rw [List.mem_reverse] at h2
  exact h ((List.dropWhile_sublist _).subset h2)

/-- `pyStripChar` keeps only characters of its input. -/
theorem pyStripChar_not_mem (c : Char) (l : List Char) (h : '.' ∉ l) :
    '.' ∉ pyStripChar c l := by
  intro hmem
  unfold pyStripChar at hmem
  rw [List.mem_reverse] at hmem
  have h2 := (List.dropWhile_sublist _).subset hmem
  rw [List.mem_reverse] at h2
  exact h ((List.dropWhile_sublist _).subset h2)

/-- Every character produced by `collapseUnderscores` is an underscore or
comes from the input. -/
theorem collapseUnderscores_mem (l : List Char) (b : Bool) (c : Char)
    (h : c ∈ collapseUnderscores b l) : c = '_' ∨ c ∈ l := by
  induction l generalizing b with
  | nil => simp [collapseUnderscores] at h
  | cons a rest ih =>
    rw [collapseUnderscores] at h
    by_cases ha : a = '_'
    · rw [if_pos ha] at h
      cases b with
      | true =>
        rcases ih true h with h1 | h1
        · exact Or.inl h1
        · exact Or.inr (List.mem_cons_of_mem _ h1)
      | false =>
        rcases List.mem_cons.mp h with h1 | h1
        · exact Or.inl h1
        · rcases ih true h1 with h2 | h2
          · exact Or.inl h2
          · exact Or.inr (List.mem_cons_of_mem _ h2)
    · rw [if_neg ha] at h
      rcases List.mem_cons.mp h with h1 | h1
      · exact Or.inr (h1 ▸ List.mem_cons_self _ _)
      · rcases ih false h1 with h2 | h2
        · exact Or.inl h2
        · exact Or.inr (List.mem_cons_of_mem _ h2)

/-- The truncation step bounds dot-free names by 200 characters. -/
theorem truncate200_length_le (l : List Char) (h : '.' ∉ l) :
    (truncate200 l).length ≤ 200 := by
  unfold truncate200
  by_cases hlen : l.length > 200
  · rw [if_pos hlen]
    have hcont : l.contains '.' = false := by
      simpa using h
    simp only [hcont, Bool.false_eq_true, if_false]
    rw [List.length_take]
    omega
  · rw [if_neg hlen]
    omega

/-- `sanitize_filename` bounds dot-free inputs by 200 characters: no
cleaning step introduces a dot, so the dot-free truncation branch
applies. -/
theorem sanitize_filename_dotfree_le (w : String) (h : '.' ∉ w.data) :
    (sanitize_filename w).length ≤ 200 := by
  unfold sanitize_filename
  show (truncate200 _).length ≤ 200
  apply truncate200_length_le
  apply pyStripChar_not_mem
  intro hmem
  rcases collapseUnderscores_mem _ _ _ hmem with h1 | h1
  · exact absurd h1 (by decide)
  · revert h1
    apply map_not_mem_dot _ _ (fun c hc => by by_cases hsp : c = ' ' <;> simp_all)
    apply pyStrip_not_mem
    apply map_not_mem_dot _ _ (fun c hc => by by_cases hinv : isInvalidFilenameChar c <;> simp_all)
    exact h

/-- A 252-character pattern with a 1-character extension. -/
def c5BigPattern : String := String.mk (List.replicate 250 'a') ++ ".x"

/-- The filename the engine produces for `c5BigPattern`: the stem is cut
to 195 characters, the `.x` extension is reattached, and `.pdf` is then
appended — 201 characters. -/
def c5Expected : String := String.mk (List.replicate 195 'a') ++ ".x.pdf"

set_option maxRecDepth 100000 in
/-- C5 counterexample: the filename engine returns a 201-character name —
the truncation step cuts the stem to 195 but reattaches the extension
unchanged, and the `.pdf` suffix is appended after the length check, so
the 200-character bound of the claim fails. -/
theorem claim_C5_counterexample :
    generate_filename_from_pattern c5BigPattern [] Option.none =
      Except.ok c5Expected ∧
    c5Expected.length = 201 := by
  exact ⟨rfl, rfl⟩

/-- C5 (amended): every successfully produced filename ends in `.pdf` up
to ASCII case (the suffix is appended when absent); the truncation step
cuts the pre-extension stem to 195 characters but reattaches the
extension unchanged, so the 200-character bound holds for dot-free names
while a name with an extension can exceed 200 characters (the
counterexample reaches 201). -/
theorem claim_C5_amended :
    (∀ (pattern : String) (data : Record) (index : Option Int) (s : String),
      generate_filename_from_pattern pattern data index = Except.ok s →
      listEndsWith (pyLower s.data) ['.', 'p', 'd', 'f'] = true) ∧
    (∀ w : String, '.' ∉ w.data → (sanitize_filename w).length ≤ 200) := by
  constructor
  · intro pattern data index s hok
    unfold generate_filename_from_pattern at hok
    cases hf : List.foldlM substField (filenameBase pattern index) data with
    | error e =>
      rw [hf] at hok
      exact absurd hok (by simp [Bind.bind, Except.bind])
    | ok f =>
      rw [hf] at hok
      simp only [Bind.bind, Except.bind, Except.ok.injEq] at hok
      exact hok ▸ filenameFinish_endsWith f
  · exact sanitize_filename_dotfree_le

/-- C5 witness: the amended theorem at concrete inputs. -/
theorem claim_C5_witness :
    listEndsWith (pyLower ("doc.pdf" : String).data) ['.', 'p', 'd', 'f'] = true ∧
    (sanitize_filename "rapport final").length ≤ 200 :=
  ⟨claim_C5_amended.1 "doc" [] Option.none "doc.pdf" (by rfl),
   claim_C5_amended.2 "rapport final" (by decide)⟩

/-! ## Claim C9 — falsy field values become the literal `vide` -/

/-- C9: for a record field whose value is falsy in the Python sense — not
only `None` and `""` but also `0` and `False` — the substitution step
`str(value or 'vide')` uses the literal word `vide`, so the produced
filename is the one the engine gives the explicit value `"vide"`, not the
stringified value (`"0"`, `"False"`). -/
theorem claim_C9 (pattern : String) (k : String) (v : PyVal) (index : Option Int)
    (h : pyTruthy v = false) :
    generate_filename_from_pattern pattern [(k, v)] index =
      generate_filename_from_pattern pattern [(k, PyVal.str "vide")] index := by
  have hv : pyOr v (PyVal.str "vide") = PyVal.str "vide" := by
    unfold pyOr
    rw [h]
    rfl
  have hv2 : pyOr (PyVal.str "vide") (PyVal.str "vide") = PyVal.str "vide" := rfl
  unfold generate_filename_from_pattern
  simp only [List.foldlM, substField, hv, hv2]

/-- C9 witness: the numeric value `0` (falsy, but not null or empty)
yields the same filename as the literal `"vide"` — `x_vide.pdf`. -/
theorem claim_C9_witness :
    pyTruthy (PyVal.int 0) = false ∧
    generate_filename_from_pattern "x_\x7bf\x7d" [("f", PyVal.int 0)] Option.none =
      generate_filename_from_pattern "x_\x7bf\x7d" [("f", PyVal.str "vide")] Option.none ∧
    generate_filename_from_pattern "x_\x7bf\x7d" [("f", PyVal.int 0)] Option.none =
      Except.ok "x_vide.pdf" :=
  ⟨by decide, claim_C9 "x_\x7bf\x7d" "f" (PyVal.int 0) Option.none (by decide), by rfl⟩

/-! ## Claim C10 — backslash escapes in field values -/

/-- C10: the stringified field value is used directly as a `re.sub`
replacement template, so a value containing a group reference such as
`\1` makes `generate_filename_from_pattern` raise (an "invalid group
reference" error — the literal pattern has no groups) instead of
returning a filename: the function is not total over scalar field
values.  A value with an unknown letter escape such as `\U` likewise
raises "bad escape". -/
theorem claim_C10 :
    generate_filename_from_pattern "\x7bf\x7d" [("f", PyVal.str "a\\1b")] Option.none =
      Except.error "invalid group reference" ∧
    generate_filename_from_pattern "\x7bf\x7d" [("f", PyVal.str "a\\Ub")] Option.none =
      Except.error "bad escape" := by
  exact ⟨rfl, rfl⟩

/-! ## Claim C8 — placeholder-free round trip -/

/-- Everything `generate_html` places before the rendered body: shell
head, font CSS, fixed stylesheet, caller stylesheet, shell middle, header
block, opening of the content div.  Independent of the template content
and of the record. -/
def c8pre (template_css : String) (logo service_name : Option String)
    (fonts_cache : List (String × String)) : String :=
  htmlShellA ++ get_font_face_css fonts_cache ++ htmlShellCss ++ template_css
    ++ htmlShellB ++ generate_entete_with_logo logo service_name ++ htmlShellC

/-- Everything `generate_html` places after the rendered body: signature
block and shell close.  Independent of the template content and of the
record. -/
def c8post (signature : Option String) : String :=
  htmlShellD ++ generate_signature signature ++ htmlShellE

/-- `String` append is associative. -/
theorem string_append_assoc (a b c : String) : a ++ b ++ c = a ++ (b ++ c) := by
  show String.mk (a.data ++ b.data ++ c.data) = String.mk (a.data ++ (b.data ++ c.data))
  rw [List.append_assoc]

/-- Rendering a delimiter-free template and assembling the document
yields the fixed scaffolding around the cleaned-up content. -/
theorem generate_html_text (content css : String) (data : Record)
    (logo sig svc : Option String) (fonts : List (String × String))
    (hnorm : jinjaNormalize content.data = content.data)
    (hplain : noJinjaDelims content.data = true) :
    generate_html content css data logo sig svc fonts =
      Except.ok (c8pre css logo svc fonts ++
        cleanEmptyStyle (cleanColorStyle content) ++ c8post sig) := by
  have hrt : render_template content data = Except.ok content := by
    have h := render_template_text content data (by rw [hnorm]; exact hplain)
    rw [hnorm, string_mk_data] at h
    exact h
  unfold generate_html
  rw [hrt]
  simp only [Bind.bind, Except.bind]
  unfold assembleHtml c8pre c8post
  simp only [string_append_assoc]

/-- C8 (amended): for a template with no placeholders (no Jinja
delimiters), no carriage return or trailing newline (which the Jinja
lexer would normalize away), and no editor-artifact styling matched by
the post-render cleanup passes, the assembled document contains the
template content byte-identical, surrounded by the fixed
header/signature/style scaffolding `c8pre`/`c8post`. -/
theorem claim_C8_amended (content css : String) (data : Record)
    (logo sig svc : Option String) (fonts : List (String × String))
    (hnorm : jinjaNormalize content.data = content.data)
    (hplain : noJinjaDelims content.data = true)
    (hclean1 : cleanColorStyle content = content)
    (hclean2 : cleanEmptyStyle content = content) :
    generate_html content css data logo sig svc fonts =
      Except.ok (c8pre css logo svc fonts ++ content ++ c8post sig) := by
  have h := generate_html_text content css data logo sig svc fonts hnorm hplain
  rw [hclean1, hclean2] at h
  exact h

/-- C8 witness: the amended theorem at a concrete placeholder-free
template with empty stylesheet and no assets. -/
theorem claim_C8_witness :
    noJinjaDelims ("Bonjour" : String).data = true ∧
    generate_html "Bonjour" "" [] Option.none Option.none Option.none [] =
      Except.ok (c8pre "" Option.none Option.none [] ++ "Bonjour" ++ c8post Option.none) :=
  ⟨by decide,
   claim_C8_amended "Bonjour" "" [] Option.none Option.none Option.none []
     rfl (by decide) rfl rfl⟩

/-- A placeholder-free template carrying an editor-artifact inline color
style. -/
def c8Artifact : String := "<p style=\"color: rgb(0,0,0);\">x</p>"

/-- C8 counterexample: a placeholder-free template containing an
editor-artifact `style="color: rgb(...)"` attribute is altered by the
post-render cleanup pass — the assembled document contains `<p >x</p>`,
not the original content, so the round trip is not byte-identical. -/
theorem claim_C8_counterexample :
    generate_html c8Artifact "" [] Option.none Option.none Option.none [] =
      Except.ok (c8pre "" Option.none Option.none [] ++ "<p >x</p>" ++ c8post Option.none) ∧
    ("<p >x</p>" : String) ≠ c8Artifact := by
  constructor
  · have h := generate_html_text c8Artifact "" [] Option.none Option.none Option.none []
      rfl (by decide)
    rw [show cleanEmptyStyle (cleanColorStyle c8Artifact) = ("<p >x</p>" : String)
      from rfl] at h
    exact h
  · decide
